import Mathlib

/-!
Shallow embedding of the synchronization core of the grohe_smarthome
integration: the per-device coordinators
(`sense_coordinator.py`, `guard_coordinator.py`, `blue_home_coordinator.py`,
`blue_prof_coordinator.py`), their refresh-and-verify state machine, the
consumption aggregator, and the freshness extraction, together with theorems
settling the specification claims about them.

JSON-ish response values are modelled by `Val`; Python floats by `ℚ`;
`datetime` instants by `PyDateTime` in one fixed timezone (the code only ever
compares aware datetimes, so zone offsets are dropped from the model);
exceptions by `PyErr`-valued `Except`.
-/

/-- Structured response values as delivered by the remote client: the JSON
value model (objects carry string keys). Python floats are modelled by `ℚ`. -/
inductive Val where
  | vnull
  | vbool (b : Bool)
  | vnum (q : ℚ)
  | vstr (s : String)
  | vlist (items : List Val)
  | vdict (entries : List (String × Val))

/-- Exception classes reaching the modelled code: `httpx.ReadTimeout`, the
`ValueError`/`TypeError` raised by `datetime.fromisoformat`, the
`AttributeError` raised on reading an attribute an instance does not have,
and a catch-all for every other request failure. -/
inductive PyErr where
  | readTimeout (msg : String)
  | valueError (msg : String)
  | typeError (msg : String)
  | attributeError (name : String)
  | other (msg : String)
deriving DecidableEq

/-- Python `dict.get(key)` on a string-keyed dictionary: `none` models the
default `None` for a missing key. -/
def dictGet : List (String × Val) → String → Option Val
  | [], _ => none
  | (k, v) :: rest, key => if k = key then some v else dictGet rest key

/-- Models `benedict(...).get(path)` for a dotted key path (given here as its
list of dot-separated components): walk nested dictionaries; any missing key
or non-dictionary intermediate yields the default `None`, never an
exception. -/
def benedictPath : Val → List String → Option Val
  | v, [] => some v
  | Val.vdict es, k :: ks =>
      match dictGet es k with
      | some v => benedictPath v ks
      | none => none
  | _, _ :: _ => none

/-- An aware `datetime` in the model's single fixed timezone. -/
structure PyDateTime where
  year : Nat
  month : Nat
  day : Nat
  hour : Nat
  minute : Nat
  second : Nat
deriving DecidableEq

/-- Chronological comparison key for `PyDateTime` (all fields are kept within
calendar ranges by the parser, so the mixed-radix key orders instants exactly
as Python's `datetime` comparison does for one timezone). -/
def PyDateTime.key (t : PyDateTime) : Nat :=
  ((((t.year * 13 + t.month) * 32 + t.day) * 24 + t.hour) * 60 + t.minute) * 60 + t.second

def charDigit (c : Char) : Option Nat :=
  if c.isDigit then some (c.toNat - 48) else none

def twoDigits (a b : Char) : Option Nat := do
  let x ← charDigit a
  let y ← charDigit b
  pure (10 * x + y)

def fourDigits (a b c d : Char) : Option Nat := do
  let x ← twoDigits a b
  let y ← twoDigits c d
  pure (100 * x + y)

def isLeapYear (y : Nat) : Bool :=
  (y % 4 = 0 && y % 100 ≠ 0) || y % 400 = 0

def daysInMonth (y m : Nat) : Nat :=
  if m = 2 then (if isLeapYear y then 29 else 28)
  else if m = 4 ∨ m = 6 ∨ m = 9 ∨ m = 11 then 30
  else 31

/-- Accepts an empty suffix, a literal Z, or a numeric utc-offset suffix; the
offset itself is dropped (single-zone model). -/
def tzSuffixOk : List Char → Bool
  | [] => true
  | ['Z'] => true
  | [sgn, h1, h2, ':', m1, m2] =>
      (sgn = '+' || sgn = '-') &&
      (match twoDigits h1 h2, twoDigits m1 m2 with
       | some h, some m => h ≤ 23 && m ≤ 59
       | _, _ => false)
  | _ => false

/-- Models the timestamp grammar accepted by `datetime.fromisoformat` on the
strings this integration sees: `YYYY-MM-DDTHH:MM:SS` (also with a space
separator) followed by an optional timezone suffix, with calendar-valid
fields. Returns `none` for anything outside the grammar. -/
def parseIsoDateTime (s : String) : Option PyDateTime :=
  match s.toList with
  | y1 :: y2 :: y3 :: y4 :: '-' :: mo1 :: mo2 :: '-' :: d1 :: d2 :: sep ::
      h1 :: h2 :: ':' :: mi1 :: mi2 :: ':' :: s1 :: s2 :: rest =>
    if sep = 'T' ∨ sep = ' ' then
      match fourDigits y1 y2 y3 y4, twoDigits mo1 mo2, twoDigits d1 d2,
            twoDigits h1 h2, twoDigits mi1 mi2, twoDigits s1 s2 with
      | some y, some mo, some d, some h, some mi, some sec =>
        if 1 ≤ mo ∧ mo ≤ 12 ∧ 1 ≤ d ∧ d ≤ daysInMonth y mo ∧
           h ≤ 23 ∧ mi ≤ 59 ∧ sec ≤ 59 ∧ tzSuffixOk rest then
          some ⟨y, mo, d, h, mi, sec⟩
        else none
      | _, _, _, _, _, _ => none
    else none
  | _ => none

/-- Models `homeassistant.util.dt.parse_datetime`: same accepted grammar as
`parseIsoDateTime`, and it returns `None` on malformed input instead of
raising. -/
def parseDatetime (s : String) : Option PyDateTime := parseIsoDateTime s

/-- Models `datetime.fromisoformat` applied to an arbitrary value: raises
`TypeError` when the argument is not a string and `ValueError` when the
string is outside the accepted grammar. -/
def fromisoformatVal (v : Val) : Except PyErr PyDateTime :=
  match v with
  | .vstr s =>
      match parseIsoDateTime s with
      | some t => .ok t
      | none => .error (.valueError s)
  | _ => .error (.typeError "fromisoformat argument must be str")

namespace BlueHome

/-- Configured timestamp path of `BlueHomeCoordinator`
(`self._key_path_for_timestamp = "details.data_latest.measurement.timestamp"`,
blue_home_coordinator.py line 54), given as its dot-separated components. -/
def keyPathComponents : List String :=
  ["details", "data_latest", "measurement", "timestamp"]

/-- Timeout budget for the background refresh:
`self._update_timeout = 30` (blue_home_coordinator.py line 60). -/
def updateTimeout : Nat := 30

/-- Poll interval for the background refresh:
`self._poll_interval = 10` (blue_home_coordinator.py line 61). -/
def pollInterval : Nat := 10

/-- Retry bound of `_send_refresh_command`: `max_attempts = 3`
(blue_home_coordinator.py line 168). -/
def sendMaxAttempts : Nat := 3

/-- Polling bound of `_async_refresh_and_verify`:
`max_attempts = self._update_timeout // self._poll_interval`
(blue_home_coordinator.py line 124). -/
def maxPollAttempts : Nat := updateTimeout / pollInterval

/-- One entry of the status mapping comprehension
`{val["type"]: val["value"] for val in ...}`: `none` models the entry raising
(`val` not subscriptable, or a key missing). Entries whose type field is not
a string are also modelled as a failure, a simplification recorded here
because the model's dictionaries carry string keys; no property below
consults the status field. -/
def statusEntryOf (v : Val) : Option (String × Val) :=
  match v with
  | .vdict es =>
      match dictGet es "type", dictGet es "value" with
      | some (.vstr t), some w => some (t, w)
      | _, _ => none
  | _ => none

def statusMapOf : List Val → Option (List (String × Val))
  | [] => some []
  | v :: vs => do
      let e ← statusEntryOf v
      let rest ← statusMapOf vs
      pure (e :: rest)

/-- The status comprehension of `_fetch_device_data` including its input
`api_data.get("status", [])` (blue_home_coordinator.py lines 102-106): a
missing status key defaults to the empty list; a non-list value (iterating it
raises) or a failing entry is caught by the surrounding `except` and degrades
the whole mapping to `None`. -/
def statusOf (api : Val) : Option (List (String × Val)) :=
  match api with
  | .vdict es =>
      match dictGet es "status" with
      | none => some []
      | some (.vlist items) => statusMapOf items
      | some _ => none
  | _ => none

/-- Models `BlueHomeCoordinator._fetch_device_data`
(blue_home_coordinator.py lines 94-108) applied to the appliance-details
response: returns the dictionary
`{"details": api_data, "status": mapping-or-None}`. -/
def fetchDeviceData (api : Val) : List (String × Val) :=
  [("details", api),
   ("status", match statusOf api with
              | some es => .vdict es
              | none => .vnull)]

/-- Models `BlueHomeCoordinator._extract_timestamp`
(blue_home_coordinator.py lines 216-227): an empty (falsy) dictionary yields
`None`; otherwise the configured dotted path is looked up on
`benedict({"details": data.get("details")})` and the value is passed to
`dt_util.parse_datetime` only when it is a string. Every constituent
operation returns a value instead of raising, which the `Option` codomain
records. -/
def extractTimestamp (data : List (String × Val)) : Option PyDateTime :=
  if data.isEmpty then none
  else
    let wrapped : Val := .vdict [("details", (dictGet data "details").getD .vnull)]
    match benedictPath wrapped keyPathComponents with
    | some (.vstr s) => parseDatetime s
    | _ => none

/-- Outcome of one `set_appliance_command` attempt inside
`_send_refresh_command`: success, an `httpx.ReadTimeout`, or any other
failure. -/
inductive SendOutcome where
  | ok
  | timeout (msg : String)
  | otherErr (msg : String)

/-- The retry loop of `_send_refresh_command`
(blue_home_coordinator.py lines 170-214), with the command attempts' outcomes
supplied as a function of the attempt index: a successful attempt returns; a
read-timeout on the last allowed attempt re-raises and otherwise retries
immediately; any other exception is not caught and propagates. Returns the
number of attempts performed together with the result. The fuel argument
counts the iterations `range(max_attempts)` still has to offer. -/
def sendAttemptLoop (send : Nat → SendOutcome) : Nat → Nat → Nat × Except PyErr Unit
  | attempt, 0 => (attempt, .ok ())
  | attempt, fuel + 1 =>
      match send attempt with
      | .ok => (attempt + 1, .ok ())
      | .otherErr e => (attempt + 1, .error (.other e))
      | .timeout e =>
          if sendMaxAttempts ≤ attempt + 1 then (attempt + 1, .error (.readTimeout e))
          else sendAttemptLoop send (attempt + 1) fuel

/-- Models `BlueHomeCoordinator._send_refresh_command`
(blue_home_coordinator.py lines 166-214). -/
def sendRefreshCommand (send : Nat → SendOutcome) : Nat × Except PyErr Unit :=
  sendAttemptLoop send 0 sendMaxAttempts

/-- The freshness test of the polling loop,
`ts and (old_ts is None or ts > old_ts)` (blue_home_coordinator.py line 133),
for an extracted (hence non-None, always-truthy) instant. -/
def freshOk (old : Option PyDateTime) (ts : PyDateTime) : Bool :=
  match old with
  | none => true
  | some m => m.key < ts.key

/-- The polling loop of `_async_refresh_and_verify`
(blue_home_coordinator.py lines 127-145): while attempts remain, sleep, fetch
the device data (the i-th fetch result is `polls i`; a raising fetch
propagates), extract the timestamp, and stop successfully on a fresh
instant, recording the attempt count, the new instant and the data to
publish. `.ok none` is the loop running out of attempts. -/
def pollLoop (old : Option PyDateTime) (polls : Nat → Except PyErr Val) :
    Nat → Nat → Except PyErr (Option (Nat × PyDateTime × List (String × Val)))
  | _, 0 => .ok none
  | i, fuel + 1 =>
      match polls i with
      | .error e => .error e
      | .ok api =>
          let nd := fetchDeviceData api
          match extractTimestamp nd with
          | some ts =>
              if freshOk old ts then .ok (some (i + 1, ts, nd))
              else pollLoop old polls (i + 1) fuel
          | none => pollLoop old polls (i + 1) fuel

inductive CycleOutcome where
  | freshFound (attempts : Nat)
  | timedOut (attempts : Nat)
  | errored (e : PyErr)

/-- Result of one background refresh cycle: the freshness marker afterwards,
the data published through `async_set_updated_data` (if any), how the cycle
ended, and the `_refresh_task_running` flag afterwards. -/
structure CycleResult where
  marker : Option PyDateTime
  published : Option (List (String × Val))
  outcome : CycleOutcome
  flagAfter : Bool

/-- Models `BlueHomeCoordinator._async_refresh_and_verify`
(blue_home_coordinator.py lines 110-164) given the previously recorded
freshness marker and the outcomes of the command attempts and of the polls:
the command is sent with retry; on success the polling loop runs for at most
`maxPollAttempts` attempts. Success updates `_last_measurement_timestamp` and
publishes the fetched data; a timeout only logs a warning; any exception
(failed send, or a poll fetch raising) is caught by the `except` and only
logged. The `finally` clears the running flag on every one of these exit
paths. -/
def refreshAndVerify (old : Option PyDateTime) (send : Nat → SendOutcome)
    (polls : Nat → Except PyErr Val) : CycleResult :=
  match (sendRefreshCommand send).2 with
  | .error e => ⟨old, none, .errored e, false⟩
  | .ok _ =>
      match pollLoop old polls 0 maxPollAttempts with
      | .error e => ⟨old, none, .errored e, false⟩
      | .ok none => ⟨old, none, .timedOut maxPollAttempts, false⟩
      | .ok (some (n, ts, d)) => ⟨some ts, some d, .freshFound n, false⟩

/-- Coordinator state at event-loop granularity: the cached data, the
freshness marker, the `_refresh_task_running` flag, and the number of
refresh-and-verify cycles currently in flight (the latter is the quantity the
single-flight claim bounds; the flag is how the code tracks it). -/
structure CoordState where
  data : Option (List (String × Val))
  marker : Option PyDateTime
  flag : Bool
  inFlight : Nat

/-- State at coordinator construction (blue_home_coordinator.py lines 50-61):
no cached data, no marker, no running refresh task. -/
def initCoordState : CoordState := ⟨none, none, false, 0⟩

/-- The task launch of `_async_update_data` (blue_home_coordinator.py lines
89-90): a cycle is created only when `_refresh_task_running` is unset. The
created task's body runs `self._refresh_task_running = True` before its first
await, and asyncio's single-threaded FIFO scheduling runs that prefix before
any later-scheduled tick, so launch and flag-set are one atomic step of the
model. -/
def spawnIfIdle (st : CoordState) : CoordState :=
  if st.flag then st else { st with flag := true, inFlight := st.inFlight + 1 }

/-- Models one call of `BlueHomeCoordinator._async_update_data`
(blue_home_coordinator.py lines 63-92) together with the scheduler storing
its return value: cached data, when present, is returned as-is without any
fetch or any wait on a running cycle; otherwise the initial data is fetched
synchronously (`fetchRes` is that fetch's result, and a raising fetch
propagates before any task is launched). Afterwards a refresh cycle is
launched if none is running. -/
def tickStep (st : CoordState) (fetchRes : Except PyErr Val) :
    CoordState × Except PyErr (List (String × Val)) :=
  match st.data with
  | some d => (spawnIfIdle st, .ok d)
  | none =>
      match fetchRes with
      | .error e => (st, .error e)
      | .ok api =>
          let d := fetchDeviceData api
          (spawnIfIdle { st with data := some d }, .ok d)

/-- A running refresh-and-verify cycle completing, applied as one event at
its completion: only cycles touch the marker and at most one cycle is ever
running, so evaluating the cycle against the state at completion is faithful.
Publishing replaces the cached data; the `finally` clears the flag; the cycle
leaves the in-flight population. Without a running cycle the event cannot
occur and is the identity. -/
def finishStep (st : CoordState) (send : Nat → SendOutcome)
    (polls : Nat → Except PyErr Val) : CoordState :=
  if st.inFlight = 0 then st
  else
    let r := refreshAndVerify st.marker send polls
    { data := match r.published with
              | some d => some d
              | none => st.data,
      marker := r.marker,
      flag := r.flagAfter,
      inFlight := st.inFlight - 1 }

/-- Events of the coordinator's cooperative scheduler. -/
inductive CoordEv where
  | tick (fetchRes : Except PyErr Val)
  | finishCycle (send : Nat → SendOutcome) (polls : Nat → Except PyErr Val)

def coordStep (st : CoordState) : CoordEv → CoordState
  | .tick f => (tickStep st f).1
  | .finishCycle s p => finishStep st s p

/-- The coordinator driven from construction through a sequence of scheduler
events. -/
def coordRun (evs : List CoordEv) : CoordState :=
  evs.foldl coordStep initCoordState

/-- The value `_extract_timestamp` finds at the configured dotted path (the
`benedict` lookup of blue_home_coordinator.py lines 221-222), named so that
the extraction properties can talk about what sits at the path. -/
def pathValue (data : List (String × Val)) : Option Val :=
  benedictPath (.vdict [("details", (dictGet data "details").getD .vnull)]) keyPathComponents

/-- The single-flight bookkeeping invariant: the in-flight cycle population
is 0 or 1 and `_refresh_task_running` is set exactly while a cycle is in
flight. -/
def coordInv (st : CoordState) : Prop :=
  st.inFlight ≤ 1 ∧ st.flag = decide (st.inFlight = 1)

/-- A poll result that the cycle does not accept as fresh: a raising fetch,
an absent extracted instant, or an instant not strictly above the marker. -/
def staleResponse (old : Option PyDateTime) (r : Except PyErr Val) : Bool :=
  match r with
  | .error _ => true
  | .ok api =>
      match extractTimestamp (fetchDeviceData api) with
      | none => true
      | some ts => !freshOk old ts

/-- A poll result that fetches successfully but is not accepted as fresh. -/
def okStaleResponse (old : Option PyDateTime) (r : Except PyErr Val) : Bool :=
  match r with
  | .error _ => false
  | .ok api =>
      match extractTimestamp (fetchDeviceData api) with
      | none => true
      | some ts => !freshOk old ts

end BlueHome

/-- A calendar date, as far as the guard coordinator's day-stamp arithmetic
consults it (it stores a full `datetime.now().astimezone()` but reads only
the `.day` attribute for the comparison; year and month are kept so that the
model can name real calendar days). -/
structure PyDate where
  year : Nat
  month : Nat
  day : Nat
deriving DecidableEq

/-- Python `round(q, 2)` on a decimal-exact value: round to the nearest
multiple of 1/100, ties to even (binary-float representation effects are
outside the rational model). -/
def pyRound2 (q : ℚ) : ℚ :=
  let x := q * 100
  let f : ℤ := ⌊x⌋
  let frac := x - f
  let r : ℤ :=
    if frac < 1 / 2 then f
    else if 1 / 2 < frac then f + 1
    else if f % 2 = 0 then f else f + 1
  (r : ℚ) / 100

namespace Guard

/-- One element's contribution to
`sum([val.get('waterconsumption', 0) for val in withdrawals])`
(guard_coordinator.py line 59): a missing key defaults to 0, a numeric value
counts (Python booleans are integers), and anything else (`None`, a string, a
nested container, or a non-dictionary element) makes the comprehension or the
sum raise, modelled as `none`. -/
def wcVal (v : Val) : Option ℚ :=
  match v with
  | .vdict es =>
      match dictGet es "waterconsumption" with
      | none => some 0
      | some (.vnum q) => some q
      | some (.vbool b) => some (if b then 1 else 0)
      | some _ => none
  | _ => none

def sumWc : List Val → Option ℚ
  | [] => some 0
  | v :: vs => do
      let a ← wcVal v
      let rest ← sumWc vs
      pure (a + rest)

/-- Models `GuardCoordinator._get_total_value`
(guard_coordinator.py lines 41-66) as a function of the
`get_appliance_data` call's result: the body looks up `data.withdrawals`,
sums the water consumption of a list value and returns 0.0 otherwise; the
enclosing catch-all `except` turns every raise — the request failing as well
as a malformed withdrawal entry — into the return value 0.0. -/
def getTotalValue (apiRes : Except PyErr Val) : ℚ :=
  match apiRes with
  | .error _ => 0
  | .ok dataIn =>
      match benedictPath dataIn ["data", "withdrawals"] with
      | some (.vlist ws) => (sumWc ws).getD 0
      | _ => 0

/-- The aggregator's persistent fields: `self._total_value` (initialised to
0, guard_coordinator.py line 28) and `self._total_value_update_day`
(initialised to `None`, line 29). -/
structure AggState where
  totalValue : ℚ
  updateDay : Option PyDate
deriving DecidableEq

/-- The recomputation guard of `_get_data` (guard_coordinator.py line 85):
`(self._total_value_update_day is not None and
datetime.now().astimezone().day - self._total_value_update_day.day >= 1)
or (self._total_value_update_day is None)` — a difference of
day-of-month values, taken in ℤ as Python subtraction is. -/
def needsRecompute (last : Option PyDate) (today : PyDate) : Bool :=
  match last with
  | some d => decide (1 ≤ (today.day : ℤ) - (d.day : ℤ))
  | none => true

/-- Models the aggregation part of `GuardCoordinator._get_data`
(guard_coordinator.py lines 83-98 and the reported
`total_water_consumption` of line 107) as a function of the two
`_get_total_value` call results: `cheapRes` is the response of today's
narrow query and `expensiveRes` that of the installation-to-now query, which
the code only issues inside the recomputation branch. On recomputation the
stored baseline becomes
`max(round(expensive, 2) - today, 0)` and the day stamp is set to the
current day. The reported total is `self._total_value + today` in either
branch. -/
def aggStep (st : AggState) (now : PyDate) (cheapRes expensiveRes : Except PyErr Val) :
    AggState × ℚ :=
  let today := getTotalValue cheapRes
  if needsRecompute st.updateDay now then
    let newTotal := max (pyRound2 (getTotalValue expensiveRes) - today) 0
    ({ totalValue := newTotal, updateDay := some now }, newTotal + today)
  else
    (st, st.totalValue + today)

/-- Written from the spec's words (a baseline computed on calendar day D and
a call after crossing into day D+1), for comparison with the source's
`needsRecompute` test: `d2` is the calendar day immediately after `d1`,
including across month and year boundaries. -/
def specNextCalendarDay (d1 d2 : PyDate) : Bool :=
  if d1.day < daysInMonth d1.year d1.month then
    decide (d2 = { d1 with day := d1.day + 1 })
  else if d1.month < 12 then
    decide (d2 = ⟨d1.year, d1.month + 1, 1⟩)
  else
    decide (d2 = ⟨d1.year + 1, 1, 1⟩)

end Guard

namespace SenseGuard

/-- Models `_async_update_data` of `SenseCoordinator`
(sense_coordinator.py lines 37-49) and of `GuardCoordinator`
(guard_coordinator.py lines 137-149), whose bodies are identical in this
respect, as a function of the `_get_data` fetch result: a successful fetch
is returned; every exception is caught, logged, and the method falls off the
end, implicitly returning `None` — `.ok none` — so the method itself never
raises (`.error` never occurs in its range). -/
def asyncUpdateData (fetchRes : Except PyErr Val) : Except PyErr (Option Val) :=
  match fetchRes with
  | .ok d => .ok (some d)
  | .error _ => .ok none

/-- Modelled from the spec: the scheduling loop around `_async_update_data`
(the external `DataUpdateCoordinator` base class, which is not among the
repository sources). Per the spec, "every successful fetch replaces the
cached Snapshot" while "a failed scheduled fetch logs the failure and leaves
the previous Snapshot untouched"; the loop can observe a failure only as an
exception raised out of `_async_update_data`, so a call that returns normally
is a successful fetch whose return value is stored as the coordinator's
current data, and only a raising call leaves the cache untouched and reports
the failure. Returns the cache afterwards, paired with whether a failure was
reported upward. -/
def scheduledTick (cache : Option Val) (fetchRes : Except PyErr Val) :
    Option Val × Bool :=
  match asyncUpdateData fetchRes with
  | .ok v => (v, false)
  | .error _ => (cache, true)

end SenseGuard

/-- Opaque model of the Python values stored on coordinator attributes where
only presence matters. -/
inductive AttrVal where
  | obj
  | num (n : Int)
  | str (s : String)
  | noneVal
  | boolVal (b : Bool)
  | emptyList
deriving DecidableEq

/-- Python attribute lookup `self.<name>` on an instance given as its
attribute dictionary: `none` models the lookup raising `AttributeError`. -/
def attrLookup : List (String × AttrVal) → String → Option AttrVal
  | [], _ => none
  | (k, v) :: rest, name => if k = name then some v else attrLookup rest name

namespace BlueProf

/-- The attribute assignments performed by `BlueProfCoordinator.__init__`
(blue_prof_coordinator.py lines 21-35), in source order, with collaborator
objects abbreviated as `.obj`. The external base-class constructor invoked
by `super().__init__` is outside the model; the spec records that the timeout
field the polling loop reads is not among the fields the constructor
initialises. -/
def initAttrs : List (String × AttrVal) :=
  [("_api", .obj),
   ("_domain", .str "domain"),
   ("_device", .obj),
   ("_timezone", .obj),
   ("_last_update", .obj),
   ("_notifications", .emptyList),
   ("_log_response_data", .boolVal false),
   ("_key_path_for_timestamp", .str "details.data_latest_measurement.timestamp"),
   ("_last_measurement_timestamp", .noneVal),
   ("_last_measurement_updated", .boolVal false),
   ("_update_timeout", .num 10),
   ("_update_interval", .num 1)]

/-- Models `BlueProfCoordinator._get_data` up to the first evaluation of the
polling loop's while-condition (blue_prof_coordinator.py lines 37-51): the
measurement command is sent (a raising send propagates); the while-condition
then reads `self._timeout`, and reading an attribute the instance does not
have raises `AttributeError`. -/
def getDataLoopCheck (attrs : List (String × AttrVal)) (cmdRes : Except PyErr Unit) :
    Except PyErr AttrVal :=
  match cmdRes with
  | .error e => .error e
  | .ok _ =>
      match attrLookup attrs "_timeout" with
      | none => .error (.attributeError "_timeout")
      | some v => .ok v

/-- Configured timestamp path of `BlueProfCoordinator`
(blue_prof_coordinator.py line 31), as its dot-separated components. -/
def keyPathComponents : List String :=
  ["details", "data_latest_measurement", "timestamp"]

/-- Models the timestamp-extraction step inside the polling loop of
`BlueProfCoordinator._get_data` (blue_prof_coordinator.py lines 57-64): the
configured dotted path is looked up with benedict; a value that
`is not None` is passed to `datetime.fromisoformat`, whose raises — a
`ValueError` on a malformed string, a `TypeError` on a non-string — are not
caught anywhere in `_get_data`. -/
def extractStep (apiData : Val) : Except PyErr (Option PyDateTime) :=
  match benedictPath apiData keyPathComponents with
  | none => .ok none
  | some .vnull => .ok none
  | some v =>
      match fromisoformatVal v with
      | .ok t => .ok (some t)
      | .error e => .error e

end BlueProf

theorem pyRound2_zero : pyRound2 0 = 0 := by norm_num [pyRound2]

theorem sendAttemptLoop_attempts_le (send : Nat → BlueHome.SendOutcome) :
    ∀ fuel attempt, (BlueHome.sendAttemptLoop send attempt fuel).1 ≤ attempt + fuel := by
  intro fuel
  induction fuel with
  | zero => intro attempt; simp [BlueHome.sendAttemptLoop]
  | succ f ih =>
      intro attempt
      unfold BlueHome.sendAttemptLoop
      match h : send attempt with
      | .ok => simp [h]
      | .otherErr e => simp [h]
      | .timeout e =>
          simp only [h]
          by_cases hc : BlueHome.sendMaxAttempts ≤ attempt + 1
          · simp [hc]
          · simp only [hc, if_false]
            have := ih (attempt + 1)
            omega

/-- Claim C1: a scheduled fetch whose data-fetch step raises is caught inside
`_async_update_data` of the Sense and Guard coordinators, which logs it and
returns `None` instead of raising. Consequently no failure is ever reported
upward, and the scheduling loop — which stores whatever the method returns —
replaces the previously cached snapshot with `None`: the previous snapshot
does not remain the coordinator's current data, contradicting the claim. The
theorem evaluates a failing scheduled fetch with a cached snapshot present:
the method returns `.ok none` (no raise), and the tick ends with the cache
clobbered to `none` and no failure reported. -/
theorem claim_C1_failed_tick_clobbers_cache :
    SenseGuard.asyncUpdateData (.error (.other "ConnectionError")) = .ok none ∧
    SenseGuard.scheduledTick (some (.vstr "previous snapshot"))
        (.error (.other "ConnectionError")) = (none, false) :=
  ⟨rfl, rfl⟩

/-- Claim C2: the guard coordinator's baseline-recomputation test subtracts
day-of-month values (`now.day - last.day >= 1`), so it behaves as claimed
within a month — a call later on the same day does not recompute and the
first call on the next mid-month day recomputes — but fails across a month
boundary: 2025-02-01 is the calendar day after 2025-01-31, yet the test
yields `1 - 31 = -30 < 1`, so the first aggregation call of the new day
performs no recomputation and the baseline and day stamp stay frozen,
contradicting "exactly one recomputation after crossing into day D+1 ...
including across month and year boundaries". -/
theorem claim_C2_day_boundary :
    (Guard.aggStep ⟨100, some ⟨2025, 1, 30⟩⟩ ⟨2025, 1, 30⟩
        (.ok (.vdict [])) (.ok (.vdict []))).1 = ⟨100, some ⟨2025, 1, 30⟩⟩ ∧
    Guard.needsRecompute (some ⟨2025, 1, 30⟩) ⟨2025, 1, 31⟩ = true ∧
    Guard.specNextCalendarDay ⟨2025, 1, 31⟩ ⟨2025, 2, 1⟩ = true ∧
    Guard.needsRecompute (some ⟨2025, 1, 31⟩) ⟨2025, 2, 1⟩ = false ∧
    (Guard.aggStep ⟨100, some ⟨2025, 1, 31⟩⟩ ⟨2025, 2, 1⟩
        (.ok (.vdict [])) (.ok (.vdict []))).1 = ⟨100, some ⟨2025, 1, 31⟩⟩ :=
  ⟨rfl, rfl, rfl, rfl, rfl⟩

/-- Claim C3: `BlueProfCoordinator.__init__` initialises `_update_timeout` (and
never `_timeout`), while the polling loop's while-condition in `_get_data`
reads `self._timeout`; on an instance built by the constructor the first
evaluation of that condition therefore raises `AttributeError`. -/
theorem claim_C3_uninitialized_timeout :
    attrLookup BlueProf.initAttrs "_timeout" = none ∧
    attrLookup BlueProf.initAttrs "_update_timeout" = some (.num 10) ∧
    BlueProf.getDataLoopCheck BlueProf.initAttrs (.ok ())
        = .error (.attributeError "_timeout") :=
  ⟨rfl, rfl, rfl⟩

theorem sendRefresh_eq (send : Nat → BlueHome.SendOutcome) :
    BlueHome.sendRefreshCommand send =
      (match send 0 with
       | .ok => (1, .ok ())
       | .otherErr e => (1, .error (.other e))
       | .timeout _ =>
         match send 1 with
         | .ok => (2, .ok ())
         | .otherErr e => (2, .error (.other e))
         | .timeout _ =>
           match send 2 with
           | .ok => (3, .ok ())
           | .otherErr e => (3, .error (.other e))
           | .timeout e => (3, .error (.readTimeout e))) := by
  rcases h0 : send 0 with _ | e0 | e0 <;> rcases h1 : send 1 with _ | e1 | e1 <;>
    rcases h2 : send 2 with _ | e2 | e2 <;>
    simp [BlueHome.sendRefreshCommand, BlueHome.sendAttemptLoop,
      BlueHome.sendMaxAttempts, h0, h1, h2]

/-- Claim C4: the command-send step makes at most 3 total attempts; every attempt
that was followed by another one ended in a read-timeout (so only the
read-timeout failure class is retried); three read-timeouts raise the last
of them; and a non-timeout failure is never retried: it propagates at the
attempt it occurs on, in particular a first-attempt non-timeout failure
aborts the step after exactly 1 attempt. -/
theorem claim_C4_send_retry (send : Nat → BlueHome.SendOutcome) :
    (BlueHome.sendRefreshCommand send).1 ≤ 3 ∧
    (∀ i, i + 1 < (BlueHome.sendRefreshCommand send).1 → ∃ e, send i = .timeout e) ∧
    (∀ e0 e1 e2, send 0 = .timeout e0 → send 1 = .timeout e1 → send 2 = .timeout e2 →
        BlueHome.sendRefreshCommand send = (3, .error (.readTimeout e2))) ∧
    (∀ e, send 0 = .otherErr e → BlueHome.sendRefreshCommand send = (1, .error (.other e))) ∧
    (∀ i e, i < 3 → send i = .otherErr e → (∀ j, j < i → ∃ ej, send j = .timeout ej) →
        BlueHome.sendRefreshCommand send = (i + 1, .error (.other e))) := by
  refine ⟨?_, ?_, ?_, ?_, ?_⟩
  · simpa using sendAttemptLoop_attempts_le send 3 0
  · intro i hi
    rw [sendRefresh_eq] at hi
    rcases h0 : send 0 with _ | e0 | e0 <;> simp only [h0] at hi
    · omega
    · rcases h1 : send 1 with _ | e1 | e1 <;> simp only [h1] at hi
      · simp only [show i = 0 by omega, h0]
        exact ⟨e0, rfl⟩
      · rcases h2 : send 2 with _ | e2 | e2 <;> simp only [h2] at hi
        all_goals
          have hlt : i < 2 := by omega
          interval_cases i
          · exact ⟨e0, h0⟩
          · exact ⟨e1, h1⟩
      · simp only [show i = 0 by omega, h0]
        exact ⟨e0, rfl⟩
    · omega
  · intro e0 e1 e2 h0 h1 h2
    rw [sendRefresh_eq]
    simp [h0, h1, h2]
  · intro e h0
    rw [sendRefresh_eq]
    simp [h0]
  · intro i e hi h0 hprev
    rw [sendRefresh_eq]
    interval_cases i
    · simp [h0]
    · obtain ⟨e0, he0⟩ := hprev 0 (by omega)
      simp [he0, h0]
    · obtain ⟨e0, he0⟩ := hprev 0 (by omega)
      obtain ⟨e1, he1⟩ := hprev 1 (by omega)
      simp [he0, he1, h0]

/-- Witness for C4 at concrete outcome sequences: three read-timeouts raise
the last timeout after 3 attempts, and a first-attempt non-timeout failure
propagates after exactly 1 attempt. -/
theorem claim_C4_send_retry_witness :
    BlueHome.sendRefreshCommand (fun _ => .timeout "t") = (3, .error (.readTimeout "t")) ∧
    BlueHome.sendRefreshCommand (fun _ => .otherErr "boom") = (1, .error (.other "boom")) :=
  ⟨(claim_C4_send_retry (fun _ => .timeout "t")).2.2.1 "t" "t" "t" rfl rfl rfl,
   (claim_C4_send_retry (fun _ => .otherErr "boom")).2.2.2.1 "boom" rfl⟩

/-- Claim C5 counterexample: the claim asserts the timestamp extraction never
raises "in both coordinator implementations", but the extraction step of
`BlueProfCoordinator._get_data` passes the value at the configured path to
`datetime.fromisoformat` without any guard: a response whose timestamp
field is a number raises `TypeError`, and one whose timestamp field is a
malformed string raises `ValueError` — neither yields "absent". -/
theorem claim_C5_counterexample :
    BlueProf.extractStep (.vdict [("details", .vdict [("data_latest_measurement",
        .vdict [("timestamp", .vnum 20240505)])])])
      = .error (.typeError "fromisoformat argument must be str") ∧
    BlueProf.extractStep (.vdict [("details", .vdict [("data_latest_measurement",
        .vdict [("timestamp", .vstr "not a timestamp")])])])
      = .error (.valueError "not a timestamp") :=
  ⟨rfl, rfl⟩

/-- Claim C5 as amended: `BlueHomeCoordinator._extract_timestamp` terminates
without raising on every response dictionary and returns the parsed instant
at the configured path, or absent when the path is missing, its value is not
a string, or the string is not a well-formed timestamp; the inline
extraction of `BlueProfCoordinator._get_data`, however, returns absent only
when the path is missing or its value is None, and raises `ValueError` on a
present malformed timestamp string and `TypeError` on a present non-string
value. -/
theorem claim_C5_amended :
    (∀ data : List (String × Val),
        (∀ v, BlueHome.pathValue data = some v → ¬ ∃ s, v = Val.vstr s) →
        BlueHome.extractTimestamp data = none) ∧
    (∀ data s, BlueHome.pathValue data = some (.vstr s) → parseIsoDateTime s = none →
        BlueHome.extractTimestamp data = none) ∧
    (∀ data s t, data ≠ [] → BlueHome.pathValue data = some (.vstr s) →
        parseIsoDateTime s = some t → BlueHome.extractTimestamp data = some t) ∧
    (∀ api, benedictPath api BlueProf.keyPathComponents = none →
        BlueProf.extractStep api = .ok none) ∧
    (∀ api s, benedictPath api BlueProf.keyPathComponents = some (.vstr s) →
        parseIsoDateTime s = none → BlueProf.extractStep api = .error (.valueError s)) ∧
    (∀ api v, benedictPath api BlueProf.keyPathComponents = some v → v ≠ .vnull →
        (¬ ∃ s, v = .vstr s) →
        BlueProf.extractStep api = .error (.typeError "fromisoformat argument must be str")) := by
  refine ⟨?_, ?_, ?_, ?_, ?_, ?_⟩
  · intro data hv
    match data with
    | [] => rfl
    | a :: l =>
      simp only [BlueHome.extractTimestamp]
      match hp : BlueHome.pathValue (a :: l) with
      | none => rw [BlueHome.pathValue] at hp; rw [hp]; rfl
      | some (.vstr s) => exact absurd ⟨s, rfl⟩ (hv _ hp)
      | some .vnull => rw [BlueHome.pathValue] at hp; rw [hp]; rfl
      | some (.vbool b) => rw [BlueHome.pathValue] at hp; rw [hp]; rfl
      | some (.vnum q) => rw [BlueHome.pathValue] at hp; rw [hp]; rfl
      | some (.vlist l2) => rw [BlueHome.pathValue] at hp; rw [hp]; rfl
      | some (.vdict es) => rw [BlueHome.pathValue] at hp; rw [hp]; rfl
  · intro data s hp hparse
    match data with
    | [] => rfl
    | a :: l =>
      simp only [BlueHome.extractTimestamp]
      rw [BlueHome.pathValue] at hp
      rw [hp]
      exact hparse
  · intro data s t hd hp hparse
    match data with
    | [] => exact absurd rfl hd
    | a :: l =>
      simp only [BlueHome.extractTimestamp]
      rw [BlueHome.pathValue] at hp
      rw [hp]
      exact hparse
  · intro api hp
    unfold BlueProf.extractStep
    rw [hp]
  · intro api s hp hparse
    unfold BlueProf.extractStep
    rw [hp]
    simp [fromisoformatVal, hparse]
  · intro api v hp hnull hstr
    unfold BlueProf.extractStep
    rw [hp]
    match v, hnull, hstr with
    | .vbool b, _, _ => rfl
    | .vnum q, _, _ => rfl
    | .vlist l, _, _ => rfl
    | .vdict es, _, _ => rfl
    | .vnull, h, _ => exact absurd rfl h
    | .vstr s, _, h => exact absurd ⟨s, rfl⟩ h

/-- Witness for C5's amended statement at concrete inputs: a response whose
details are None makes the blue-home extractor return absent; a well-formed
timestamp is returned parsed; a response without the configured path makes
the blue-prof extraction return absent. -/
theorem claim_C5_amended_witness :
    BlueHome.extractTimestamp [("details", .vnull)] = none ∧
    BlueHome.extractTimestamp (BlueHome.fetchDeviceData (.vdict [("data_latest",
        .vdict [("measurement", .vdict [("timestamp",
          .vstr "2024-05-05T12:00:00Z")])])])) = some ⟨2024, 5, 5, 12, 0, 0⟩ ∧
    BlueProf.extractStep (.vdict []) = .ok none := by
  refine ⟨claim_C5_amended.1 [("details", .vnull)] ?_,
    claim_C5_amended.2.2.1 _ "2024-05-05T12:00:00Z" ⟨2024, 5, 5, 12, 0, 0⟩
      (by simp [BlueHome.fetchDeviceData]) rfl rfl,
    claim_C5_amended.2.2.2.1 (.vdict []) rfl⟩
  intro v hv
  have hnone : BlueHome.pathValue [("details", Val.vnull)] = none := rfl
  rw [hnone] at hv
  exact Option.noConfusion hv

theorem refreshAndVerify_flagAfter (old : Option PyDateTime)
    (send : Nat → BlueHome.SendOutcome) (polls : Nat → Except PyErr Val) :
    (BlueHome.refreshAndVerify old send polls).flagAfter = false := by
  unfold BlueHome.refreshAndVerify
  cases hs : (BlueHome.sendRefreshCommand send).2 with
  | error e => rfl
  | ok u =>
    cases hp : BlueHome.pollLoop old polls 0 BlueHome.maxPollAttempts with
    | error e => rfl
    | ok o =>
      cases o with
      | none => rfl
      | some trip => obtain ⟨n, ts, d⟩ := trip; rfl

theorem spawnIfIdle_inv (st : BlueHome.CoordState) (h : BlueHome.coordInv st) :
    BlueHome.coordInv (BlueHome.spawnIfIdle st) := by
  obtain ⟨h1, h2⟩ := h
  unfold BlueHome.spawnIfIdle
  by_cases hf : st.flag
  · simpa [hf] using ⟨h1, h2⟩
  · have hfl : st.flag = false := by simpa using hf
    have hne : st.inFlight ≠ 1 := by
      intro hh
      rw [hh, hfl] at h2
      simp at h2
    have h0 : st.inFlight = 0 := by omega
    simp only [hf, if_false, hfl, Bool.false_eq_true]
    exact ⟨by simp [BlueHome.coordInv, h0], by simp [BlueHome.coordInv, h0]⟩

theorem coordStep_inv (st : BlueHome.CoordState) (ev : BlueHome.CoordEv)
    (h : BlueHome.coordInv st) : BlueHome.coordInv (BlueHome.coordStep st ev) := by
  cases ev with
  | tick f =>
    show BlueHome.coordInv (BlueHome.tickStep st f).1
    unfold BlueHome.tickStep
    cases hd : st.data with
    | some d => exact spawnIfIdle_inv st h
    | none =>
      cases f with
      | error e => exact h
      | ok api =>
        exact spawnIfIdle_inv { st with data := some (BlueHome.fetchDeviceData api) } h
  | finishCycle send polls =>
    show BlueHome.coordInv (BlueHome.finishStep st send polls)
    unfold BlueHome.finishStep
    by_cases h0 : st.inFlight = 0
    · simpa [h0] using h
    · obtain ⟨h1, h2⟩ := h
      have hfl : st.inFlight = 1 := by omega
      simp only [h0, if_false]
      refine ⟨by simp [hfl], ?_⟩
      rw [refreshAndVerify_flagAfter]
      simp [hfl]

theorem coordInv_run (evs : List BlueHome.CoordEv) :
    BlueHome.coordInv (BlueHome.coordRun evs) := by
  have key : ∀ l : List BlueHome.CoordEv, ∀ st, BlueHome.coordInv st →
      BlueHome.coordInv (l.foldl BlueHome.coordStep st) := by
    intro l
    induction l with
    | nil => intro st h; exact h
    | cons e rest ih => intro st h; exact ih _ (coordStep_inv st e h)
  exact key evs BlueHome.initCoordState ⟨by simp [BlueHome.initCoordState],
    by simp [BlueHome.initCoordState]⟩

/-- Claim C6: from construction through any sequence of scheduler events, at most
one refresh-and-verify cycle is ever in flight; a tick that fires while
`_refresh_task_running` is set launches no second cycle (the in-flight count
and flag are untouched); a tick with a cached snapshot returns that snapshot
regardless of the fetch outcome and without touching the running cycle; and
the `finally` of the cycle clears the flag on every exit path — success,
timeout, or error — so completing the in-flight cycle always leaves the flag
unset. -/
theorem claim_C6_single_flight :
    (∀ evs, (BlueHome.coordRun evs).inFlight ≤ 1) ∧
    (∀ st f, st.flag = true →
        (BlueHome.tickStep st f).1.inFlight = st.inFlight ∧
        (BlueHome.tickStep st f).1.flag = st.flag) ∧
    (∀ st f d, st.data = some d → (BlueHome.tickStep st f).2 = .ok d) ∧
    (∀ old send polls, (BlueHome.refreshAndVerify old send polls).flagAfter = false) ∧
    (∀ st send polls, st.inFlight ≠ 0 →
        (BlueHome.finishStep st send polls).flag = false) := by
  refine ⟨fun evs => (coordInv_run evs).1, ?_, ?_, refreshAndVerify_flagAfter, ?_⟩
  · intro st f hf
    unfold BlueHome.tickStep
    cases hd : st.data with
    | some d => constructor <;> simp [BlueHome.spawnIfIdle, hf]
    | none =>
      cases f with
      | error e => exact ⟨rfl, rfl⟩
      | ok api => constructor <;> simp [BlueHome.spawnIfIdle, hf]
  · intro st f d hd
    unfold BlueHome.tickStep
    rw [hd]
  · intro st send polls h0
    unfold BlueHome.finishStep
    simp only [h0, if_false]
    rw [refreshAndVerify_flagAfter]

/-- Witness for C6 at concrete inputs: two successive ticks from the initial
state leave at most one cycle in flight; a tick on a busy coordinator keeps
the in-flight count at 1; a tick with a cached snapshot returns it even
though its fetch argument is a failure. -/
theorem claim_C6_single_flight_witness :
    (BlueHome.coordRun [.tick (.ok (.vdict [])), .tick (.ok (.vdict []))]).inFlight ≤ 1 ∧
    (BlueHome.tickStep ⟨some [("details", .vnull)], none, true, 1⟩
        (.ok (.vdict []))).1.inFlight = 1 ∧
    (BlueHome.tickStep ⟨some [("details", .vnull)], none, true, 1⟩
        (.error (.other "network down"))).2 = .ok [("details", .vnull)] := by
  refine ⟨claim_C6_single_flight.1 _, ?_, claim_C6_single_flight.2.2.1 _ _ _ rfl⟩
  exact (claim_C6_single_flight.2.1 ⟨some [("details", .vnull)], none, true, 1⟩
    (.ok (.vdict [])) rfl).1

theorem pollLoop_stale (old : Option PyDateTime) (polls : Nat → Except PyErr Val)
    (h : ∀ j, BlueHome.staleResponse old (polls j) = true) :
    ∀ fuel i, BlueHome.pollLoop old polls i fuel = .ok none ∨
      ∃ e, BlueHome.pollLoop old polls i fuel = .error e := by
  intro fuel
  induction fuel with
  | zero => intro i; left; rfl
  | succ f ih =>
    intro i
    have hj := h i
    cases hp : polls i with
    | error e =>
      right
      exact ⟨e, by simp only [BlueHome.pollLoop, hp]⟩
    | ok api =>
      rw [hp] at hj
      simp only [BlueHome.staleResponse] at hj
      simp only [BlueHome.pollLoop, hp]
      cases he : BlueHome.extractTimestamp (BlueHome.fetchDeviceData api) with
      | none =>
        simp only [he]
        exact ih (i + 1)
      | some ts =>
        simp only [he] at hj
        have hfr : BlueHome.freshOk old ts = false := by simpa using hj
        simp only [he, hfr, Bool.false_eq_true, if_false]
        exact ih (i + 1)

theorem pollLoop_okStale (old : Option PyDateTime) (polls : Nat → Except PyErr Val)
    (h : ∀ j, BlueHome.okStaleResponse old (polls j) = true) :
    ∀ fuel i, BlueHome.pollLoop old polls i fuel = .ok none := by
  intro fuel
  induction fuel with
  | zero => intro i; rfl
  | succ f ih =>
    intro i
    have hj := h i
    cases hp : polls i with
    | error e =>
      rw [hp] at hj
      simp [BlueHome.okStaleResponse] at hj
    | ok api =>
      rw [hp] at hj
      simp only [BlueHome.okStaleResponse] at hj
      simp only [BlueHome.pollLoop, hp]
      cases he : BlueHome.extractTimestamp (BlueHome.fetchDeviceData api) with
      | none =>
        simp only [he]
        exact ih (i + 1)
      | some ts =>
        simp only [he] at hj
        have hfr : BlueHome.freshOk old ts = false := by simpa using hj
        simp only [he, hfr, Bool.false_eq_true, if_false]
        exact ih (i + 1)

theorem pollLoop_fresh (old : Option PyDateTime) (polls : Nat → Except PyErr Val) :
    ∀ fuel i n ts d, BlueHome.pollLoop old polls i fuel = .ok (some (n, ts, d)) →
      BlueHome.freshOk old ts = true := by
  intro fuel
  induction fuel with
  | zero =>
    intro i n ts d hres
    rw [show BlueHome.pollLoop old polls i 0 = .ok none from rfl] at hres
    simp at hres
  | succ f ih =>
    intro i n ts d hres
    simp only [BlueHome.pollLoop] at hres
    cases hp : polls i with
    | error e => rw [hp] at hres; simp at hres
    | ok api =>
      simp only [hp] at hres
      cases he : BlueHome.extractTimestamp (BlueHome.fetchDeviceData api) with
      | none =>
        simp only [he] at hres
        exact ih (i + 1) n ts d hres
      | some ts2 =>
        simp only [he] at hres
        cases hfr : BlueHome.freshOk old ts2 with
        | false =>
          simp only [hfr, Bool.false_eq_true, if_false] at hres
          exact ih (i + 1) n ts d hres
        | true =>
          simp only [hfr, if_true] at hres
          simp only [Except.ok.injEq, Option.some.injEq, Prod.mk.injEq] at hres
          obtain ⟨-, h2, -⟩ := hres
          rw [← h2]
          exact hfr

theorem pollLoop_attempt_le (old : Option PyDateTime) (polls : Nat → Except PyErr Val) :
    ∀ fuel i n ts d, BlueHome.pollLoop old polls i fuel = .ok (some (n, ts, d)) →
      n ≤ i + fuel := by
  intro fuel
  induction fuel with
  | zero =>
    intro i n ts d hres
    rw [show BlueHome.pollLoop old polls i 0 = .ok none from rfl] at hres
    simp at hres
  | succ f ih =>
    intro i n ts d hres
    simp only [BlueHome.pollLoop] at hres
    cases hp : polls i with
    | error e => rw [hp] at hres; simp at hres
    | ok api =>
      simp only [hp] at hres
      cases he : BlueHome.extractTimestamp (BlueHome.fetchDeviceData api) with
      | none =>
        simp only [he] at hres
        have := ih (i + 1) n ts d hres
        omega
      | some ts2 =>
        simp only [he] at hres
        cases hfr : BlueHome.freshOk old ts2 with
        | false =>
          simp only [hfr, Bool.false_eq_true, if_false] at hres
          have := ih (i + 1) n ts d hres
          omega
        | true =>
          simp only [hfr, if_true] at hres
          simp only [Except.ok.injEq, Option.some.injEq, Prod.mk.injEq] at hres
          obtain ⟨h1, -, -⟩ := hres
          omega

/-- Claim C7: when every poll of a refresh-and-verify cycle either fails to fetch,
extracts no instant, or extracts an instant not strictly greater than the
previously recorded freshness marker, the cycle never ends in the
fresh-data-found outcome, publishes no snapshot, and leaves the marker
exactly as it was; and unconditionally — across every cycle — the marker is
monotonically non-decreasing: whenever it is set before a cycle, it is still
set afterwards and has not moved backwards. -/
theorem claim_C7_stale_polls :
    (∀ old send polls, (∀ j, BlueHome.staleResponse old (polls j) = true) →
        (BlueHome.refreshAndVerify old send polls).published = none ∧
        (∀ n, (BlueHome.refreshAndVerify old send polls).outcome
            ≠ BlueHome.CycleOutcome.freshFound n) ∧
        (BlueHome.refreshAndVerify old send polls).marker = old) ∧
    (∀ old send polls m, old = some m →
        ∃ m2, (BlueHome.refreshAndVerify old send polls).marker = some m2 ∧
          m.key ≤ m2.key) := by
  constructor
  · intro old send polls h
    unfold BlueHome.refreshAndVerify
    cases hs : (BlueHome.sendRefreshCommand send).2 with
    | error e => exact ⟨rfl, fun n h2 => BlueHome.CycleOutcome.noConfusion h2, rfl⟩
    | ok u =>
      rcases pollLoop_stale old polls h BlueHome.maxPollAttempts 0 with hres | ⟨e, hres⟩
      · rw [hres]
        exact ⟨rfl, fun n h2 => BlueHome.CycleOutcome.noConfusion h2, rfl⟩
      · rw [hres]
        exact ⟨rfl, fun n h2 => BlueHome.CycleOutcome.noConfusion h2, rfl⟩
  · intro old send polls m hm
    unfold BlueHome.refreshAndVerify
    cases hs : (BlueHome.sendRefreshCommand send).2 with
    | error e => exact ⟨m, hm, le_refl _⟩
    | ok u =>
      cases hres : BlueHome.pollLoop old polls 0 BlueHome.maxPollAttempts with
      | error e => exact ⟨m, hm, le_refl _⟩
      | ok o =>
        cases o with
        | none => exact ⟨m, hm, le_refl _⟩
        | some trip =>
          obtain ⟨n, ts, d⟩ := trip
          have hfr := pollLoop_fresh old polls BlueHome.maxPollAttempts 0 n ts d hres
          rw [hm] at hfr
          simp only [BlueHome.freshOk, decide_eq_true_eq] at hfr
          exact ⟨ts, rfl, le_of_lt hfr⟩

/-- Witness for C7 at a concrete stale cycle: polls that always return a
response without any timestamp leave the marker at its previous value and
publish nothing. -/
theorem claim_C7_stale_polls_witness :
    (BlueHome.refreshAndVerify (some ⟨2024, 1, 1, 0, 0, 0⟩) (fun _ => .ok)
        (fun _ => .ok (.vdict []))).marker = some ⟨2024, 1, 1, 0, 0, 0⟩ ∧
    (BlueHome.refreshAndVerify (some ⟨2024, 1, 1, 0, 0, 0⟩) (fun _ => .ok)
        (fun _ => .ok (.vdict []))).published = none := by
  have h := claim_C7_stale_polls.1 (some ⟨2024, 1, 1, 0, 0, 0⟩) (fun _ => .ok)
    (fun _ => .ok (.vdict [])) (fun _ => rfl)
  exact ⟨h.2.2, h.1⟩

/-- Claim C9: the polling budget is `max_attempts = update_timeout //
poll_interval` with the configured 30-second timeout and 10-second interval,
hence 3; a cycle in which every poll fetches successfully but never yields a
fresher instant performs exactly that many polling attempts and then
declares the timed-out outcome; and no successful cycle ever exceeds the
budget. -/
theorem claim_C9_poll_budget :
    BlueHome.updateTimeout = 30 ∧ BlueHome.pollInterval = 10 ∧
    BlueHome.maxPollAttempts = BlueHome.updateTimeout / BlueHome.pollInterval ∧
    BlueHome.maxPollAttempts = 3 ∧
    (∀ old send polls, (∀ j, BlueHome.okStaleResponse old (polls j) = true) →
        (BlueHome.sendRefreshCommand send).2 = .ok () →
        (BlueHome.refreshAndVerify old send polls).outcome
          = BlueHome.CycleOutcome.timedOut BlueHome.maxPollAttempts) ∧
    (∀ old send polls n, (BlueHome.refreshAndVerify old send polls).outcome
          = BlueHome.CycleOutcome.freshFound n → n ≤ BlueHome.maxPollAttempts) := by
  refine ⟨rfl, rfl, rfl, rfl, ?_, ?_⟩
  · intro old send polls h hsend
    unfold BlueHome.refreshAndVerify
    simp only [hsend]
    rw [pollLoop_okStale old polls h BlueHome.maxPollAttempts 0]
  · intro old send polls n hout
    unfold BlueHome.refreshAndVerify at hout
    cases hs : (BlueHome.sendRefreshCommand send).2 with
    | error e => rw [hs] at hout; exact BlueHome.CycleOutcome.noConfusion hout
    | ok u =>
      rw [hs] at hout
      cases hres : BlueHome.pollLoop old polls 0 BlueHome.maxPollAttempts with
      | error e => rw [hres] at hout; exact BlueHome.CycleOutcome.noConfusion hout
      | ok o =>
        cases o with
        | none => rw [hres] at hout; exact BlueHome.CycleOutcome.noConfusion hout
        | some trip =>
          obtain ⟨k, ts, d⟩ := trip
          rw [hres] at hout
          have hk : k = n := by injection hout
          have hb := pollLoop_attempt_le old polls BlueHome.maxPollAttempts 0 k ts d hres
          omega

/-- Witness for C9 at a concrete budget-exhausting cycle: a successful
command send followed by polls that never carry a timestamp ends in the
timed-out outcome after the full budget of attempts. -/
theorem claim_C9_poll_budget_witness :
    (BlueHome.refreshAndVerify none (fun _ => .ok) (fun _ => .ok (.vdict []))).outcome
        = BlueHome.CycleOutcome.timedOut BlueHome.maxPollAttempts :=
  claim_C9_poll_budget.2.2.2.2.1 none (fun _ => .ok) (fun _ => .ok (.vdict []))
    (fun _ => rfl) rfl

/-- Claim C8 counterexample: the claim quantifies over all values returned by the
two consumption queries and asserts the reported total is clamped to zero,
while the code clamps only the baseline at recomputation time, never the
reported sum. On a day whose baseline is already stamped (so no
recomputation happens), a cheap today-query response carrying a negative
withdrawal makes the reported total `0 + (-1) = -1 < 0`. -/
theorem claim_C8_counterexample :
    (Guard.aggStep ⟨0, some ⟨2025, 3, 10⟩⟩ ⟨2025, 3, 10⟩
        (.ok (.vdict [("data", .vdict [("withdrawals",
          .vlist [.vdict [("waterconsumption", .vnum (-1))]])])]))
        (.ok (.vdict []))).2 < 0 := by
  have hrec : Guard.needsRecompute (some ⟨2025, 3, 10⟩) (⟨2025, 3, 10⟩ : PyDate) = false := rfl
  have hval : Guard.getTotalValue (.ok (.vdict [("data", .vdict [("withdrawals",
      .vlist [.vdict [("waterconsumption", .vnum (-1))]])])])) = -1 := by
    simp [Guard.getTotalValue, benedictPath, dictGet, Guard.sumWc, Guard.wcVal]
  unfold Guard.aggStep
  rw [hrec]
  simp only [Bool.false_eq_true, if_false, hval]
  norm_num

/-- Claim C8 as amended: the stored baseline is clamped to zero at every
recomputation and hence always non-negative once non-negative, and whenever
the cheap today-query result is non-negative the reported total
`baseline + today` is non-negative as well — in particular when the
expensive query returns a smaller value than today's cheap query, where the
clamped baseline is what keeps the sum from going negative. The reported sum
itself carries no clamp, so a negative today-value can surface as a negative
total. -/
theorem claim_C8_amended (st : Guard.AggState) (now : PyDate)
    (cheapRes expensiveRes : Except PyErr Val)
    (hb : 0 ≤ st.totalValue) (ht : 0 ≤ Guard.getTotalValue cheapRes) :
    0 ≤ (Guard.aggStep st now cheapRes expensiveRes).2 ∧
    0 ≤ (Guard.aggStep st now cheapRes expensiveRes).1.totalValue := by
  unfold Guard.aggStep
  cases hrec : Guard.needsRecompute st.updateDay now with
  | true =>
    simp only [if_true]
    constructor
    · exact add_nonneg (le_max_right _ 0) ht
    · exact le_max_right _ 0
  | false =>
    simp only [Bool.false_eq_true, if_false]
    exact ⟨add_nonneg hb ht, hb⟩

/-- Witness for C8's amended statement: with a zero stored baseline, an
expensive query smaller than the cheap query (here 1 < 2), and a
non-negative cheap result, the reported total is non-negative. -/
theorem claim_C8_amended_witness :
    0 ≤ (Guard.aggStep ⟨0, none⟩ ⟨2025, 3, 10⟩
        (.ok (.vdict [("data", .vdict [("withdrawals",
          .vlist [.vdict [("waterconsumption", .vnum 2)]])])]))
        (.ok (.vdict [("data", .vdict [("withdrawals",
          .vlist [.vdict [("waterconsumption", .vnum 1)]])])]))).2 :=
  (claim_C8_amended ⟨0, none⟩ ⟨2025, 3, 10⟩ _ _ (le_refl 0)
    (by simp [Guard.getTotalValue, benedictPath, dictGet, Guard.sumWc, Guard.wcVal])).1

/-- Claim C10: when the expensive installation-to-now query fails during a
baseline recomputation, `_get_total_value` swallows the exception and
returns 0.0; the stored baseline then becomes
`max(round(0, 2) - today, 0)`, which is 0 whenever today's consumption is
non-negative — silently discarding whatever baseline had been accumulated —
while the day stamp is still set to the current day, so a later aggregation
call on the same day performs no recomputation and the zero baseline
persists. -/
theorem claim_C10_lost_baseline (st : Guard.AggState) (now : PyDate)
    (cheapRes : Except PyErr Val) (e : PyErr) (cheap2 exp2 : Except PyErr Val)
    (hrec : Guard.needsRecompute st.updateDay now = true)
    (ht : 0 ≤ Guard.getTotalValue cheapRes) :
    Guard.getTotalValue (.error e) = 0 ∧
    (Guard.aggStep st now cheapRes (.error e)).1.totalValue
        = max (0 - Guard.getTotalValue cheapRes) 0 ∧
    (Guard.aggStep st now cheapRes (.error e)).1.totalValue = 0 ∧
    (Guard.aggStep st now cheapRes (.error e)).1.updateDay = some now ∧
    Guard.aggStep (Guard.aggStep st now cheapRes (.error e)).1 now cheap2 exp2
        = ((Guard.aggStep st now cheapRes (.error e)).1,
           (Guard.aggStep st now cheapRes (.error e)).1.totalValue
             + Guard.getTotalValue cheap2) := by
  have hzero : Guard.getTotalValue (Except.error e) = 0 := rfl
  have hmax : max (0 - Guard.getTotalValue cheapRes) 0 = 0 := by
    apply max_eq_right
    linarith
  have hstep : (Guard.aggStep st now cheapRes (.error e)).1
      = ⟨max (0 - Guard.getTotalValue cheapRes) 0, some now⟩ := by
    unfold Guard.aggStep
    rw [hrec]
    simp only [if_true, hzero, pyRound2_zero]
  refine ⟨hzero, by rw [hstep], by rw [hstep, hmax], by rw [hstep], ?_⟩
  rw [hstep]
  simp [Guard.aggStep, Guard.needsRecompute]

/-- Witness for C10 at a concrete day-boundary recomputation: a previously
accumulated baseline of 250 with its stamp on the previous day is replaced
by 0 when the expensive query fails, and the stamp moves to the current
day. -/
theorem claim_C10_lost_baseline_witness :
    (Guard.aggStep ⟨250, some ⟨2025, 1, 30⟩⟩ ⟨2025, 1, 31⟩
        (.ok (.vdict [])) (.error (.other "request failed"))).1.totalValue = 0 ∧
    (Guard.aggStep ⟨250, some ⟨2025, 1, 30⟩⟩ ⟨2025, 1, 31⟩
        (.ok (.vdict [])) (.error (.other "request failed"))).1.updateDay
      = some ⟨2025, 1, 31⟩ := by
  have h := claim_C10_lost_baseline ⟨250, some ⟨2025, 1, 30⟩⟩ ⟨2025, 1, 31⟩
    (.ok (.vdict [])) (.other "request failed") (.ok (.vdict [])) (.ok (.vdict []))
    rfl (le_refl 0)
  exact ⟨h.2.2.1, h.2.2.2.1⟩
